import Mathlib

/-!
Verification of the migration orchestration and post-migration verification
logic of the mtv-api-tests repository, embedded shallowly in Lean.

The embedding follows the Python sources:
* `utilities/mtv_migration.py` — plan state poller, failed-step lookup,
  migration lookup, `migrate_vms` control flow;
* `utilities/post_migration.py` — `get_destination`, `check_network`,
  `check_storage`;
* `libs/providers/vmware.py` — `VMWareProvider.vms` batch health screen;
* `exceptions/exceptions.py` — the exception taxonomy.

Python dictionaries/`ResourceField` objects become structures with `Option`
fields where an attribute may be absent (attribute access on a missing field
yields `None`); Python truthiness of an optional string (absent or empty
means falsy) is `truthyOpt`.  Exceptions become explicit error values in
`Except`-typed results.
-/

namespace MtvApiTests

/-- Decidable equality on `Except`, used to evaluate the embedded functions
on concrete inputs. -/
instance exceptDecidableEq {ε α : Type} [DecidableEq ε] [DecidableEq α] :
    DecidableEq (Except ε α)
  | .ok a, .ok b =>
    if h : a = b then .isTrue (by rw [h])
    else .isFalse (fun hh => h (Except.ok.inj hh))
  | .ok _, .error _ => .isFalse (fun hh => Except.noConfusion hh)
  | .error _, .ok _ => .isFalse (fun hh => Except.noConfusion hh)
  | .error e, .error f =>
    if h : e = f then .isTrue (by rw [h])
    else .isFalse (fun hh => h (Except.error.inj hh))

/-- Python truthiness for an optional string: `None` and `""` are falsy. -/
def truthyOpt : Option String → Bool
  | none => false
  | some s => s ≠ ""

/-! ## Migration state poller (`utilities/mtv_migration.py`) -/

/-- One entry of `plan.instance.status.conditions`: fields `category`,
`status`, `type`, read with exact string comparison. -/
structure PlanCondition where
  category : String
  status : String
  type : String
deriving DecidableEq, Repr

/-- `Plan.Condition.Status.TRUE` in `ocp_resources`. -/
def conditionStatusTrue : String := "True"

/-- `Plan.Status.SUCCEEDED` in `ocp_resources`. -/
def planStatusSucceeded : String := "Succeeded"

/-- `Plan.Status.FAILED` in `ocp_resources`. -/
def planStatusFailed : String := "Failed"

/-- Default of `py_config.get("plan_wait_timeout", 600)`. -/
def planWaitTimeoutDefault : Nat := 600

/-- The inner sampler `_wait_for_migration_complate`: scan the condition list;
the first condition with category `"Advisory"` and status `"True"` whose type
is `Succeeded` or `Failed` determines the sample; otherwise `"Executing"`. -/
def sampleMigrationState (conds : List PlanCondition) : String :=
  match conds with
  | [] => "Executing"
  | c :: rest =>
    if c.category == "Advisory" && c.status == conditionStatusTrue then
      if c.type == planStatusSucceeded || c.type == planStatusFailed then
        c.type
      else
        sampleMigrationState rest
    else
      sampleMigrationState rest

/-- A condition that the sampler treats as terminal: category `"Advisory"`,
status `"True"`, type `Succeeded` or `Failed`. -/
def isTerminalAdvisory (c : PlanCondition) : Bool :=
  (c.category == "Advisory" && c.status == conditionStatusTrue) &&
    (c.type == planStatusSucceeded || c.type == planStatusFailed)

/-- The errors raised by the embedded code (`exceptions/exceptions.py` plus
the library exceptions that the code handles).  `wait_for_migration_complate`
converts both a terminal `Failed` state and a `TimeoutExpiredError` into
`MigrationPlanExecError`. -/
inductive MtvError where
  | migrationPlanExecError
  | timeoutExpired
  | migrationNotFound (planName : String)
  | migrationStatus (migrationName : String)
  | vmPipeline (vmName : String)
  | vmNotFound (vmName : String) (migrationName : String)
  | apiError (status : Nat)
  | valueError
  | assertionError
  | inconsistentFailureStep
  | unexpectedFailureStep
deriving DecidableEq, Repr

/-- The polling loop body of `wait_for_migration_complate`: `sampleAt i` is
the condition list read at the i-th sample (the sampler sleeps 1s between
samples, so `timeout` seconds allow `timeout` samples); exhausting the
timeout raises `TimeoutExpiredError`, which the enclosing handler re-raises
as `MigrationPlanExecError`, exactly as a terminal `Failed` sample does. -/
def pollMigration (sampleAt : Nat → List PlanCondition) : Nat → Nat → Except MtvError Unit
  | _, 0 => .error .migrationPlanExecError
  | i, fuel + 1 =>
    let sample := sampleMigrationState (sampleAt i)
    if sample == planStatusSucceeded then
      .ok ()
    else if sample == planStatusFailed then
      .error .migrationPlanExecError
    else
      pollMigration sampleAt (i + 1) fuel

/-- `wait_for_migration_complate(plan)`, with the cluster reads abstracted as
the sample trace `sampleAt` and the configured timeout made explicit. -/
def waitForMigrationComplate (sampleAt : Nat → List PlanCondition) (timeout : Nat) :
    Except MtvError Unit :=
  pollMigration sampleAt 0 timeout

/-! ## Migration CR model and failed-step lookup (`utilities/mtv_migration.py`) -/

/-- One entry of a per-VM pipeline: `{name, error?}`; `error` read with
`getattr(step, "error", None)` and tested for truthiness. -/
structure PipelineStep where
  name : String
  error : Option String
deriving DecidableEq, Repr

/-- One entry of `migration.instance.status.vms`: `id` and `name` read with
`getattr(vm_status, "id", "")` / `getattr(vm_status, "name", "")`; `pipeline`
read with `getattr(vm_status, "pipeline", None)` (an absent attribute and an
empty list are both falsy). -/
structure VmStatus where
  id : String
  name : String
  pipeline : Option (List PipelineStep)
deriving DecidableEq, Repr

/-- `migration.instance.status`: only the `vms` projection is read. -/
structure MigrationStatus where
  vms : Option (List VmStatus)
deriving DecidableEq, Repr

/-- A Migration CR as read by `_find_migration_for_plan` /
`_get_failed_migration_step`: `metadata.name`, `spec.plan.{name,namespace}`
(read with `.get`, so possibly absent), `metadata.creationTimestamp` (the
sort key, represented by its order-isomorphic `datetime` value), and the
optional `status`. -/
structure MigrationCR where
  name : String
  planName : Option String
  planNamespace : Option String
  creationTimestamp : Nat
  status : Option MigrationStatus
deriving DecidableEq, Repr

/-- Ascending comparison on `creationTimestamp`, the key of
`migrations.sort(key=...)`. -/
def tsLE (a b : MigrationCR) : Prop :=
  a.creationTimestamp ≤ b.creationTimestamp

instance : DecidableRel tsLE := fun a b =>
  inferInstanceAs (Decidable (a.creationTimestamp ≤ b.creationTimestamp))

instance : IsTotal MigrationCR tsLE :=
  ⟨fun a b => Nat.le_total a.creationTimestamp b.creationTimestamp⟩

instance : IsTrans MigrationCR tsLE :=
  ⟨fun _ _ _ hab hbc => Nat.le_trans hab hbc⟩

instance : IsRefl MigrationCR tsLE :=
  ⟨fun a => Nat.le_refl a.creationTimestamp⟩

/-- The stable ascending sort `migrations.sort(key=lambda m: ...)` on
creation timestamps. -/
def sortByTs (l : List MigrationCR) : List MigrationCR :=
  l.insertionSort tsLE

/-- The Migrations in the namespace whose `spec.plan` references the plan by
both name and namespace — the filter loop of `_find_migration_for_plan`. -/
def migrationsForPlan (planName planNamespace : String) (objs : List MigrationCR) :
    List MigrationCR :=
  objs.filter fun m => m.planName == some planName && m.planNamespace == some planNamespace

/-- `_find_migration_for_plan`: the namespace listing is `listing`
(`.error st` models an `ApiException` with that HTTP status raised by
`Migration.get`).  A 404 becomes `MigrationNotFoundError`; other statuses
re-raise; no referencing Migration is `MigrationNotFoundError`; with more
than one match the list is sorted by creation timestamp and the last entry
(`migrations[-1]`) is returned. -/
def findMigrationForPlan (planName planNamespace : String)
    (listing : Except Nat (List MigrationCR)) : Except MtvError MigrationCR :=
  match listing with
  | .error st =>
    if st = 404 then .error (.migrationNotFound planName) else .error (.apiError st)
  | .ok objs =>
    let migrations := migrationsForPlan planName planNamespace objs
    if migrations.isEmpty then
      .error (.migrationNotFound planName)
    else
      let ordered := if migrations.length > 1 then sortByTs migrations else migrations
      match ordered.getLast? with
      | some m => .ok m
      | none => .error (.migrationNotFound planName)

/-- The per-VM scan of `_get_failed_migration_step` over `status.vms`: skip
entries matching neither by id nor name; on the first match, a falsy
pipeline raises `VmPipelineError`, else the first step with a truthy error
yields its name, else `VmPipelineError`; no match at all raises
`VmNotFoundError`. -/
def scanVmStatuses (vmName migrationName : String) :
    List VmStatus → Except MtvError String
  | [] => .error (.vmNotFound vmName migrationName)
  | v :: rest =>
    if vmName == v.id || vmName == v.name then
      match v.pipeline with
      | none => .error (.vmPipeline vmName)
      | some steps =>
        match steps.find? (fun s => truthyOpt s.error) with
        | some s => .ok s.name
        | none => .error (.vmPipeline vmName)
    else
      scanVmStatuses vmName migrationName rest

/-- `_get_failed_migration_step(plan, vm_name)`: find the Migration for the
plan, require a truthy status with a truthy `vms` list, and scan for the
VM's entry. -/
def getFailedMigrationStep (planName planNamespace : String)
    (listing : Except Nat (List MigrationCR)) (vmName : String) :
    Except MtvError String :=
  match findMigrationForPlan planName planNamespace listing with
  | .error e => .error e
  | .ok migration =>
    match migration.status with
    | none => .error (.migrationStatus migration.name)
    | some st =>
      match st.vms with
      | none => .error (.migrationStatus migration.name)
      | some [] => .error (.migrationStatus migration.name)
      | some (v :: vs) => scanVmStatuses vmName migration.name (v :: vs)

/-! ## `migrate_vms` control flow (`utilities/mtv_migration.py`) -/

/-- `_get_all_vms_failed_steps`: per VM, the failed step, with the four
classification errors (`MigrationNotFoundError`, `MigrationStatusError`,
`VmPipelineError`, `VmNotFoundError`) caught and recorded as `none`; any
other exception (e.g. a non-404 `ApiException`) propagates. -/
def getAllVmsFailedSteps (planName planNamespace : String)
    (listing : Except Nat (List MigrationCR)) :
    List String → Except MtvError (List (String × Option String))
  | [] => .ok []
  | vmName :: rest =>
    let step : Except MtvError (Option String) :=
      match getFailedMigrationStep planName planNamespace listing vmName with
      | .ok s => .ok (some s)
      | .error (.migrationNotFound _) => .ok none
      | .error (.migrationStatus _) => .ok none
      | .error (.vmPipeline _) => .ok none
      | .error (.vmNotFound _ _) => .ok none
      | .error e => .error e
    match step with
    | .error e => .error e
    | .ok s =>
      match getAllVmsFailedSteps planName planNamespace listing rest with
      | .error e => .error e
      | .ok tail => .ok ((vmName, s) :: tail)

/-- Modelled from the spec: `validate_all_vms_same_step` in
`utilities/hooks.py`, a module absent from the sources.  Per spec §4.4, all
VMs must report the same failed step; disagreement fails with
`InconsistentFailureStep`; the resolved common step is returned (a run for
which no step could be resolved cannot produce a common step and is treated
as the same classification failure). -/
def validateAllVmsSameStep (failedSteps : List (String × Option String)) :
    Except MtvError String :=
  match failedSteps with
  | [] => .error .inconsistentFailureStep
  | (_, s0) :: rest =>
    if rest.all (fun p => p.2 == s0) then
      match s0 with
      | some step => .ok step
      | none => .error .inconsistentFailureStep
    else
      .error .inconsistentFailureStep

/-- Modelled from the spec: `validate_expected_hook_failure` in
`utilities/hooks.py`, a module absent from the sources.  Per spec §4.4, the
resolved common step must equal the scenario's configured expected step,
else the validation fails with `UnexpectedFailureStep`. -/
def validateExpectedHookFailure (actualFailedStep expectedFailedStep : String) :
    Except MtvError Unit :=
  if actualFailedStep == expectedFailedStep then .ok ()
  else .error .unexpectedFailureStep

/-- The plan test configuration consumed by `migrate_vms`: the VM names, the
`expected_migration_result` key (`plan.get`, defaulting to `"succeed"`), the
four hook reference keys set by the plan fixture, the scenario's configured
expected failed step (spec-modelled, consumed by
`validate_expected_hook_failure`), and the `check_vms_signals` key
(defaulting to true). -/
structure PlanCfg where
  vmNames : List String
  expectedMigrationResult : Option String
  preHookName : Option String
  preHookNamespace : Option String
  postHookName : Option String
  postHookNamespace : Option String
  expectedFailedStep : String
  checkVmsSignals : Option Bool
deriving DecidableEq, Repr

/-- The observable calls `migrate_vms` makes that the claims are about:
entering the hook failure classifier (`validate_all_vms_same_step` /
`validate_expected_hook_failure`) and running the post-migration verifier
`check_vms`. -/
inductive MigEvent where
  | classifierCalled
  | checkVmsCalled
deriving DecidableEq, Repr

/-- `migrate_vms`, from the hook-consistency validation onward (inventory ID
population and resource construction are orchestration elided here): the
result of the call paired with the trace of classifier / `check_vms`
invocations.  `sampleAt`/`timeout` feed `wait_for_migration_complate`;
`listing` feeds the failed-step lookup; `cfgCheckVmsSignals` is the truthy
value of `get_value_from_py_config("check_vms_signals")`. -/
def migrateVms (plan : PlanCfg) (planName planNamespace : String)
    (sampleAt : Nat → List PlanCondition) (timeout : Nat)
    (listing : Except Nat (List MigrationCR)) (cfgCheckVmsSignals : Bool) :
    Except MtvError Unit × List MigEvent :=
  if plan.preHookName.isSome != plan.preHookNamespace.isSome then
    (.error .valueError, [])
  else if plan.postHookName.isSome != plan.postHookNamespace.isSome then
    (.error .valueError, [])
  else if plan.expectedMigrationResult.getD "succeed" == "fail" then
    match waitForMigrationComplate sampleAt timeout with
    | .ok () =>
      -- the AssertionError escapes: the handler catches MigrationPlanExecError only
      (.error .assertionError, [])
    | .error .migrationPlanExecError =>
      match getAllVmsFailedSteps planName planNamespace listing plan.vmNames with
      | .error e => (.error e, [])
      | .ok failedSteps =>
        if plan.preHookName.isSome || plan.postHookName.isSome then
          match validateAllVmsSameStep failedSteps with
          | .error e => (.error e, [.classifierCalled])
          | .ok actualFailedStep =>
            match validateExpectedHookFailure actualFailedStep plan.expectedFailedStep with
            | .error e => (.error e, [.classifierCalled])
            | .ok () =>
              if actualFailedStep == "PostHook" then
                (.ok (), [.classifierCalled, .checkVmsCalled])
              else
                (.ok (), [.classifierCalled])
        else
          (.ok (), [])
    | .error e => (.error e, [])
  else
    match waitForMigrationComplate sampleAt timeout with
    | .ok () =>
      if cfgCheckVmsSignals && plan.checkVmsSignals.getD true then
        (.ok (), [.checkVmsCalled])
      else
        (.ok (), [])
    | .error e => (.error e, [])

/-! ## Post-migration verifier (`utilities/post_migration.py`) -/

/-- `RWO` constant. -/
def RWO : String := "ReadWriteOnce"

/-- `RWX` constant. -/
def RWX : String := "ReadWriteMany"

/-- A `check.equal` record emitted by `pytest_check`: the actual value, the
expected value and the message label.  `eqNat` compares counts, `eqStr`
strings, `eqStrOpt` a string against a possibly-absent expected value. -/
inductive Assertion where
  | eqNat (actual expected : Nat) (label : String)
  | eqStr (actual expected : String) (label : String)
  | eqStrOpt (actual : String) (expected : Option String) (label : String)
deriving DecidableEq, Repr

/-- Whether a recorded `check.equal` passed. -/
def assertionHolds : Assertion → Bool
  | .eqNat a b _ => a == b
  | .eqStr a b _ => a == b
  | .eqStrOpt a b _ => some a == b

/-- `disk["storage"]`: the storage-class name and the `access_mode` list of a
disk in a `vm_dict`. -/
structure StorageRef where
  name : String
  access_mode : List String
deriving DecidableEq, Repr

/-- A disk entry of a `vm_dict`. -/
structure DiskRec where
  storage : StorageRef
deriving DecidableEq, Repr

/-- The disks projection of a `vm_dict`. -/
structure VmDisks where
  disks : List DiskRec
deriving DecidableEq, Repr

/-- `mapping.source` of a storage-map entry: only `name` is read by
`check_storage`. -/
structure SmSource where
  name : String
deriving DecidableEq, Repr

/-- `mapping.destination` of a storage-map entry:
`mapping.destination.get("accessMode")` (absent means `None`). -/
structure SmDest where
  accessMode : Option String
deriving DecidableEq, Repr

/-- One entry of `storage_map_resource.instance.spec.map`. -/
structure StorageMapEntry where
  source : SmSource
  destination : SmDest
deriving DecidableEq, Repr

/-- `destination_disk["storage"]["access_mode"][0]` (the checked element). -/
def accessMode0 (d : DiskRec) : String :=
  d.storage.access_mode.getD 0 ""

/-- The shared Ceph RBD storage class tested for in `check_storage`. -/
def cephRbdClass : String := "ocs-storagecluster-ceph-rbd"

/-- `check_storage(source_vm, destination_vm, storage_map_resource)` with the
configured `config["storage_class"]` passed explicitly: the recorded
`check.equal` calls, in order.  For each destination disk the storage class
is compared against the configured class; when the disk's class is the Ceph
RBD class, every storage-map entry whose source name appears among the
source VM's disk storage names contributes one access-mode check — `RWO` if
the entry carries a truthy `accessMode`, else `RWX`. -/
def checkStorage (sourceVm destinationVm : VmDisks)
    (storageMap : List StorageMapEntry) (configStorageClass : String) :
    List Assertion :=
  let sourceVmDisksStorage := sourceVm.disks.map fun d => d.storage.name
  Assertion.eqNat destinationVm.disks.length sourceVm.disks.length "disks count" ::
    destinationVm.disks.flatMap fun destinationDisk =>
      Assertion.eqStr destinationDisk.storage.name configStorageClass "storage class" ::
        if destinationDisk.storage.name == cephRbdClass then
          storageMap.flatMap fun mapping =>
            if sourceVmDisksStorage.contains mapping.source.name then
              if truthyOpt mapping.destination.accessMode then
                [Assertion.eqStr (accessMode0 destinationDisk) RWO ""]
              else
                [Assertion.eqStr (accessMode0 destinationDisk) RWX ""]
            else
              []
        else
          []

/-- A source NIC's network identity, `source_vm_nic["network"]`, in its
dictionary form (the vSphere / oVirt adapters produce `{name}` / `{id}`
dictionaries); `.get("id")` / `.get("name")` return `none` when absent. -/
structure NicNet where
  id : Option String
  name : Option String
deriving DecidableEq, Repr

/-- `map_item.source` of a network-map entry (`ResourceField`: a missing
attribute reads as `None`). -/
structure NmSource where
  type : Option String
  name : Option String
  id : Option String
deriving DecidableEq, Repr

/-- `map_item.destination` of a network-map entry. -/
structure NmDest where
  type : Option String
  name : Option String
deriving DecidableEq, Repr

/-- One entry of `network_map_resource.instance.spec.map`. -/
structure NetworkMapEntry where
  source : NmSource
  destination : NmDest
deriving DecidableEq, Repr

/-- The Python exceptions that `get_destination` / `check_network` can raise
while crunching data (as opposed to recording a `pytest_check` failure). -/
inductive PyErr where
  | typeError
  | indexError
deriving DecidableEq, Repr

/-- `s.split("/")[1]`: `IndexError` when there is no separator. -/
def pySplitIdx1 (s : String) : Except PyErr String :=
  match (s.splitOn "/").get? 1 with
  | some t => .ok t
  | none => .error .indexError

/-- The `{"name": "pod"}` literal used when the destination type is pod. -/
def podDestination : NmDest := { type := none, name := some "pod" }

/-- `get_destination(map_resource, source_vm_nic)` for a NIC whose network
identity is a dictionary: scan the map entries in order; an entry with a
truthy `source.type` compares `source.type` (and `source.name.split("/")[1]`
when `source.name` is truthy) against the network dictionary — string
against dictionary, never equal, but the split can raise `IndexError`;
otherwise the entry matches when its truthy `source.id` equals the
dictionary's `id` or its truthy `source.name` equals the dictionary's
`name`.  No matching entry yields `none`. -/
def getDestination (mapEntries : List NetworkMapEntry) (nicNet : NicNet) :
    Except PyErr (Option NmDest) :=
  match mapEntries with
  | [] => .ok none
  | e :: rest =>
    let result := if e.destination.type == some "pod" then podDestination else e.destination
    if truthyOpt e.source.type then
      -- map_item.source.type == source_vm_nic["network"]: a string never
      -- equals the network dictionary, so this comparison is always false
      if truthyOpt e.source.name then
        match pySplitIdx1 (e.source.name.getD "") with
        | .error err => .error err
        | .ok _ =>
          -- split result (a string) never equals the network dictionary
          getDestination rest nicNet
      else
        getDestination rest nicNet
    else
      if truthyOpt e.source.id && (e.source.id == nicNet.id) then
        .ok (some result)
      else if truthyOpt e.source.name && (e.source.name == nicNet.name) then
        .ok (some result)
      else
        getDestination rest nicNet

/-- A source VM NIC as produced by the source adapters:
`{macAddress, network}` with a dictionary network identity. -/
structure SrcNic where
  macAddress : String
  network : NicNet
deriving DecidableEq, Repr

/-- A destination VM NIC: `{macAddress, network}` with the network name as a
string. -/
structure DstNic where
  macAddress : String
  network : String
deriving DecidableEq, Repr

/-- `get_nic_by_mac(nics, mac_address)`: the `[0]` of the filtered list —
`IndexError` when no NIC carries the MAC. -/
def getNicByMac (nics : List DstNic) (mac : String) : Except PyErr DstNic :=
  match nics.filter (fun n => n.macAddress == mac) with
  | [] => .error .indexError
  | n :: _ => .ok n

/-- `check_network(...)`: for each source NIC, resolve the expected
destination network name via `get_destination(...)["name"]` (subscripting the
`None` returned for an unresolved NIC raises `TypeError`), find the
destination NIC with the same MAC (`IndexError` when absent), and record
`check.equal(destination_vm_nic["network"], expected_network_name)`. -/
def checkNetwork (srcNics : List SrcNic) (dstNics : List DstNic)
    (networkMap : List NetworkMapEntry) : Except PyErr (List Assertion) :=
  match srcNics with
  | [] => .ok []
  | nic :: rest =>
    match getDestination networkMap nic.network with
    | .error e => .error e
    | .ok none => .error .typeError
    | .ok (some result) =>
      match getNicByMac dstNics nic.macAddress with
      | .error e => .error e
      | .ok dstNic =>
        match checkNetwork rest dstNics networkMap with
        | .error e => .error e
        | .ok tail => .ok (Assertion.eqStrOpt dstNic.network result.name "" :: tail)

/-! ## vSphere adapter health screen (`libs/providers/vmware.py`) -/

/-- A vSphere VM as screened by `VMWareProvider.vms`: its name and the
results of the two health probes `is_vm_missing_vmx_file` /
`is_vm_with_bad_datastore` (external queries, represented by their
outcome). -/
structure VSphereVM where
  name : String
  missingVmx : Bool
  badDatastore : Bool
deriving DecidableEq, Repr

/-- The outcome of a `vms()` call: the returned VM list, a raised
`NoVmsFoundError`, a raised batch health error, or a `TypeError` raised at
the exception-construction site when the supplied keyword argument does not
bind to a parameter of the exception's `__init__`. -/
inductive VmsResult where
  | ok (vms : List VSphereVM)
  | noVmsFound (message : String)
  | vmMissingVmx (vms : List String)
  | vmBadDatastore (vms : List String)
  | typeError (ctor kw : String)
deriving DecidableEq, Repr

/-- The parameters (besides `self`) of `VmMissingVmxError.__init__` in
`exceptions/exceptions.py`. -/
def vmMissingVmxErrorParams : List String := ["vm"]

/-- The parameters (besides `self`) of `VmBadDatastoreError.__init__` in
`exceptions/exceptions.py`. -/
def vmBadDatastoreErrorParams : List String := ["vm"]

/-- The call `raise VmMissingVmxError(vms=names)` in `vms()`: Python binds
the keyword `vms` against the constructor's parameter list; an unknown
keyword raises `TypeError` instead of the intended exception. -/
def raiseVmMissingVmx (names : List String) : VmsResult :=
  if vmMissingVmxErrorParams.contains "vms" then
    .vmMissingVmx names
  else
    .typeError "VmMissingVmxError" "vms"

/-- The call `raise VmBadDatastoreError(vms=names)` in `vms()`, bound the
same way. -/
def raiseVmBadDatastore (names : List String) : VmsResult :=
  if vmBadDatastoreErrorParams.contains "vms" then
    .vmBadDatastore names
  else
    .typeError "VmBadDatastoreError" "vms"

/-- `VMWareProvider.vms(query)`: enumerate (`allVms` is the container view;
`search` is the compiled case-insensitive regex search, abstracted as a
predicate), fail on an empty enumeration, filter by the query when one is
given and fail when it matches nothing, then run the batch health screen:
all VMs missing their vmx descriptor fail the call together, then all VMs
with inaccessible backing storage; only a fully healthy set is returned. -/
def vmwareVms (search : String → String → Bool) (host : String)
    (allVms : List VSphereVM) (query : String) : VmsResult :=
  if allVms.isEmpty then
    .noVmsFound ("No VMs found at all on host " ++ host)
  else
    let targetVms := if query ≠ "" then allVms.filter (fun v => search query v.name) else allVms
    if query ≠ "" && targetVms.isEmpty then
      .noVmsFound ("No VMs found matching query " ++ query ++ " on host " ++ host)
    else
      let vmsWithMissingVmx := (targetVms.filter fun v => v.missingVmx).map fun v => v.name
      if ¬ vmsWithMissingVmx.isEmpty then
        raiseVmMissingVmx vmsWithMissingVmx
      else
        let vmsWithBadDatastore := (targetVms.filter fun v => v.badDatastore).map fun v => v.name
        if ¬ vmsWithBadDatastore.isEmpty then
          raiseVmBadDatastore vmsWithBadDatastore
        else
          .ok targetVms

/-! ## Theorems -/

/-- A condition list carrying an Advisory/True `Failed` condition ahead of an
Advisory/True `Succeeded` one. -/
def condsFailedThenSucceeded : List PlanCondition :=
  [{ category := "Advisory", status := "True", type := "Failed" },
   { category := "Advisory", status := "True", type := "Succeeded" }]

/-- C1 counterexample: on a condition list that carries both an Advisory/True
`Failed` condition and an Advisory/True `Succeeded` condition, the sampler
returns `"Failed"` (the first terminal condition), so "returns `Succeeded`
iff some Advisory/True `Succeeded` condition exists" is false. -/
theorem sample_state_claim_false :
    ¬ ((sampleMigrationState condsFailedThenSucceeded = "Succeeded") ↔
       (∃ c ∈ condsFailedThenSucceeded,
         c.category = "Advisory" ∧ c.status = "True" ∧ c.type = "Succeeded")) := by
  decide

/-- C1 (amended): the single-sample classification returns the type of the
first condition with category `"Advisory"`, status `"True"` and type
`Succeeded` or `Failed`; when no such condition exists it returns
`"Executing"`.  In particular the result is `Succeeded`/`Failed` iff such a
condition exists, but with both types present the earlier one wins. -/
theorem sample_state_first_terminal (conds : List PlanCondition) :
    sampleMigrationState conds =
      (((conds.find? isTerminalAdvisory).map PlanCondition.type).getD "Executing") := by
  induction conds with
  | nil => rfl
  | cons c rest ih =>
    by_cases h1 : (c.category == "Advisory" && c.status == conditionStatusTrue) = true
    · by_cases h2 : (c.type == planStatusSucceeded || c.type == planStatusFailed) = true
      · simp [sampleMigrationState, h1, h2, List.find?, isTerminalAdvisory]
      · simp [sampleMigrationState, h1, h2, List.find?, isTerminalAdvisory, ih]
    · simp [sampleMigrationState, h1, List.find?, isTerminalAdvisory, ih]

/-- The success characterization of the polling loop: starting at sample
index `start` with `fuel` samples left, the loop returns normally iff some
in-window sample classifies `Succeeded` with no earlier `Failed` sample. -/
theorem pollMigration_ok_iff (sampleAt : Nat → List PlanCondition) :
    ∀ (fuel start : Nat),
      pollMigration sampleAt start fuel = .ok () ↔
        ∃ k < fuel, sampleMigrationState (sampleAt (start + k)) = planStatusSucceeded ∧
          ∀ j < k, sampleMigrationState (sampleAt (start + j)) ≠ planStatusFailed := by
  intro fuel
  induction fuel with
  | zero =>
    intro start
    simp [pollMigration]
  | succ n ih =>
    intro start
    have hstep : pollMigration sampleAt start (n + 1) =
        (if sampleMigrationState (sampleAt start) == planStatusSucceeded then .ok ()
         else if sampleMigrationState (sampleAt start) == planStatusFailed then
           .error .migrationPlanExecError
         else pollMigration sampleAt (start + 1) n) := rfl
    by_cases hs' : sampleMigrationState (sampleAt start) = planStatusSucceeded
    · have hres : pollMigration sampleAt start (n + 1) = .ok () := by
        rw [hstep]; simp [hs']
      rw [hres]
      constructor
      · intro _
        exact ⟨0, Nat.succ_pos n, by simpa using hs',
          fun j hj => absurd hj (Nat.not_lt_zero j)⟩
      · intro _; rfl
    · by_cases hf' : sampleMigrationState (sampleAt start) = planStatusFailed
      · have hres : pollMigration sampleAt start (n + 1) =
            .error .migrationPlanExecError := by
          rw [hstep]; simp [hf', planStatusFailed, planStatusSucceeded]
        rw [hres]
        constructor
        · intro h; cases h
        · rintro ⟨k, _, hsucc, hbefore⟩
          cases k with
          | zero => exact absurd (by simpa using hsucc) hs'
          | succ m =>
            have h0 := hbefore 0 (Nat.succ_pos m)
            simp only [Nat.add_zero] at h0
            exact absurd hf' h0
      · have hres : pollMigration sampleAt start (n + 1) =
            pollMigration sampleAt (start + 1) n := by
          rw [hstep]; simp [hs', hf']
        rw [hres, ih (start + 1)]
        constructor
        · rintro ⟨k, hk, hsucc, hbefore⟩
          refine ⟨k + 1, by omega, ?_, ?_⟩
          · have harith : start + (k + 1) = start + 1 + k := by omega
            rw [harith]; exact hsucc
          · intro j hj
            cases j with
            | zero => simpa using hf'
            | succ m =>
              have harith : start + (m + 1) = start + 1 + m := by omega
              rw [harith]; exact hbefore m (by omega)
        · rintro ⟨k, hk, hsucc, hbefore⟩
          cases k with
          | zero => exact absurd (by simpa using hsucc) hs'
          | succ m =>
            refine ⟨m, by omega, ?_, ?_⟩
            · have harith : start + 1 + m = start + (m + 1) := by omega
              rw [harith]; exact hsucc
            · intro j hj
              have harith : start + 1 + j = start + (j + 1) := by omega
              rw [harith]; exact hbefore (j + 1) (by omega)

/-- The polling loop never surfaces any error other than
`MigrationPlanExecError`. -/
theorem pollMigration_total (sampleAt : Nat → List PlanCondition) :
    ∀ (fuel start : Nat),
      pollMigration sampleAt start fuel = .ok () ∨
        pollMigration sampleAt start fuel = .error .migrationPlanExecError := by
  intro fuel
  induction fuel with
  | zero => intro start; right; rfl
  | succ n ih =>
    intro start
    by_cases hs : (sampleMigrationState (sampleAt start) == planStatusSucceeded) = true
    · left; simp [pollMigration, hs]
    · by_cases hf : (sampleMigrationState (sampleAt start) == planStatusFailed) = true
      · right; simp [pollMigration, hs, hf]
      · simpa [pollMigration, hs, hf] using ih (start + 1)

/-- C2 (amended): `wait_for_migration_complate` returns normally iff some
sample within the timeout window classifies `Succeeded` with no earlier
`Failed` sample; in every other case — a terminal `Failed` classification
and a timeout alike — it raises the one error `MigrationPlanExecError`, so
the two failure causes are not distinguishable by error kind. -/
theorem wait_for_migration_error_classes (sampleAt : Nat → List PlanCondition)
    (timeout : Nat) :
    (waitForMigrationComplate sampleAt timeout = .ok () ↔
       ∃ i < timeout, sampleMigrationState (sampleAt i) = planStatusSucceeded ∧
         ∀ j < i, sampleMigrationState (sampleAt j) ≠ planStatusFailed) ∧
    (waitForMigrationComplate sampleAt timeout = .ok () ∨
       waitForMigrationComplate sampleAt timeout = .error .migrationPlanExecError) := by
  constructor
  · simpa using pollMigration_ok_iff sampleAt timeout 0
  · exact pollMigration_total sampleAt timeout 0

/-- A sample trace that reports a terminal `Failed` condition at once. -/
def traceTerminalFailed : Nat → List PlanCondition :=
  fun _ => [{ category := "Advisory", status := "True", type := "Failed" }]

/-- A sample trace with no terminal condition at any time. -/
def traceAlwaysExecuting : Nat → List PlanCondition :=
  fun _ => []

/-- C2 counterexample: with the default 600-second timeout, a run that
reaches terminal `Failed` and a run that never leaves `Executing` both raise
the same `MigrationPlanExecError` — the timeout is not surfaced as a
distinct error kind, so the caller cannot distinguish the two. -/
theorem wait_for_migration_timeout_indistinguishable :
    waitForMigrationComplate traceTerminalFailed planWaitTimeoutDefault =
        .error .migrationPlanExecError ∧
      waitForMigrationComplate traceAlwaysExecuting planWaitTimeoutDefault =
        .error .migrationPlanExecError ∧
      waitForMigrationComplate traceAlwaysExecuting planWaitTimeoutDefault ≠
        .error .timeoutExpired := by
  have hnever : ∀ i, sampleMigrationState (traceAlwaysExecuting i) ≠ planStatusSucceeded := by
    intro i
    simp [traceAlwaysExecuting, sampleMigrationState, planStatusSucceeded]
  have herr : waitForMigrationComplate traceAlwaysExecuting planWaitTimeoutDefault =
      .error .migrationPlanExecError := by
    rcases pollMigration_total traceAlwaysExecuting planWaitTimeoutDefault 0 with hok | herr
    · exfalso
      rcases (pollMigration_ok_iff traceAlwaysExecuting planWaitTimeoutDefault 0).mp hok
        with ⟨k, _, hsucc, _⟩
      exact hnever (0 + k) hsucc
    · exact herr
  refine ⟨rfl, herr, ?_⟩
  intro h
  rw [herr] at h
  exact MtvError.noConfusion (Except.error.inj h)

/-- The claim's reading of `_get_failed_migration_step` (claim-side
definition, for comparison with the code-side `getFailedMigrationStep`):
find the Migration for the plan (404 and absence become
`MigrationNotFoundError`); a missing status or missing/empty `vms` list is
`MigrationStatusError`; the VM's entry is the first one matching by id or
name — no match is `VmNotFoundError`; within the entry, a missing pipeline
or no step with a non-empty error is `VmPipelineError`, and otherwise the
result is the name of the first step with a non-empty error. -/
def claimFailedMigrationStep (planName planNamespace : String)
    (listing : Except Nat (List MigrationCR)) (vmName : String) :
    Except MtvError String :=
  match findMigrationForPlan planName planNamespace listing with
  | .error e => .error e
  | .ok migration =>
    match migration.status with
    | none => .error (.migrationStatus migration.name)
    | some st =>
      match st.vms with
      | none => .error (.migrationStatus migration.name)
      | some vmsList =>
        if vmsList.isEmpty then
          .error (.migrationStatus migration.name)
        else
          match vmsList.find? (fun v => vmName == v.id || vmName == v.name) with
          | none => .error (.vmNotFound vmName migration.name)
          | some v =>
            match v.pipeline with
            | none => .error (.vmPipeline vmName)
            | some steps =>
              match steps.find? (fun s => truthyOpt s.error) with
              | some s => .ok s.name
              | none => .error (.vmPipeline vmName)

/-- The sequential per-VM scan of `_get_failed_migration_step` resolves the
first status entry matching by id or name. -/
theorem scanVmStatuses_eq_find (vmName migrationName : String) :
    ∀ l : List VmStatus,
      scanVmStatuses vmName migrationName l =
        match l.find? (fun v => vmName == v.id || vmName == v.name) with
        | none => .error (.vmNotFound vmName migrationName)
        | some v =>
          match v.pipeline with
          | none => .error (.vmPipeline vmName)
          | some steps =>
            match steps.find? (fun s => truthyOpt s.error) with
            | some s => .ok s.name
            | none => .error (.vmPipeline vmName) := by
  intro l
  induction l with
  | nil => rfl
  | cons v rest ih =>
    by_cases h : (vmName == v.id || vmName == v.name) = true
    · rw [List.find?_cons_of_pos rest h]
      simp [scanVmStatuses, h]
    · rw [List.find?_cons_of_neg rest (by simpa using h)]
      simp only [scanVmStatuses, h, Bool.false_eq_true, if_neg]
      exact ih

/-- C3: `_get_failed_migration_step` behaves exactly as the claim's error
taxonomy describes — it returns the name of the first pipeline step with a
non-empty error in the matched VM's entry, raises `MigrationNotFoundError`
when no Migration references the plan (including the 404 case),
`MigrationStatusError` when the Migration has no status or no `vms` list,
`VmPipelineError` when the matched entry has no pipeline or no step with a
non-empty error, and `VmNotFoundError` when no entry matches by name or
id. -/
theorem get_failed_migration_step_matches_claim (planName planNamespace vmName : String)
    (listing : Except Nat (List MigrationCR)) :
    getFailedMigrationStep planName planNamespace listing vmName =
      claimFailedMigrationStep planName planNamespace listing vmName := by
  rcases hfind : findMigrationForPlan planName planNamespace listing with e | migration
  · simp [getFailedMigrationStep, claimFailedMigrationStep, hfind]
  · rcases hst : migration.status with _ | st
    · simp [getFailedMigrationStep, claimFailedMigrationStep, hfind, hst]
    · rcases hvms : st.vms with _ | vmsList
      · simp [getFailedMigrationStep, claimFailedMigrationStep, hfind, hst, hvms]
      · cases vmsList with
        | nil => simp [getFailedMigrationStep, claimFailedMigrationStep, hfind, hst, hvms]
        | cons v vs =>
          simp [getFailedMigrationStep, claimFailedMigrationStep, hfind, hst, hvms,
            scanVmStatuses_eq_find vmName migration.name (v :: vs)]

/-- In a list sorted by a reflexive relation, the last element is related
from every member. -/
theorem sorted_rel_getLast {α : Type} {r : α → α → Prop} [IsRefl α r] :
    ∀ (l : List α) (m : α), l.Sorted r → l.getLast? = some m → ∀ x ∈ l, r x m := by
  intro l
  induction l with
  | nil =>
    intro m _ hlast
    cases hlast
  | cons a t ih =>
    intro m hs hlast x hx
    cases t with
    | nil =>
      have hm : m = a := by
        simpa using hlast.symm
      have hxa : x = a := by simpa using hx
      rw [hm, hxa]
      exact refl_of r a
    | cons b t' =>
      have hlast' : (b :: t').getLast? = some m := hlast
      rcases List.mem_cons.mp hx with hxa | hxt
      · have hmmem : m ∈ b :: t' := List.mem_of_mem_getLast? hlast'
        rw [hxa]
        exact List.rel_of_sorted_cons hs m hmmem
      · exact ih m (List.Sorted.of_cons hs) hlast' x hxt

/-- C10: when more than one Migration in the namespace references the plan
by both name and namespace, `_find_migration_for_plan` returns a Migration
from that set whose creation timestamp is maximal — the most recently
created run. -/
theorem find_migration_returns_latest (planName planNamespace : String)
    (objs : List MigrationCR)
    (hmany : 1 < (migrationsForPlan planName planNamespace objs).length) :
    ∃ m, findMigrationForPlan planName planNamespace (.ok objs) = .ok m ∧
      m ∈ migrationsForPlan planName planNamespace objs ∧
      ∀ m' ∈ migrationsForPlan planName planNamespace objs,
        m'.creationTimestamp ≤ m.creationTimestamp := by
  have hempty : (migrationsForPlan planName planNamespace objs).isEmpty = false := by
    cases hmigs : migrationsForPlan planName planNamespace objs with
    | nil => rw [hmigs] at hmany; simp at hmany
    | cons a t => simp
  have hsortne : sortByTs (migrationsForPlan planName planNamespace objs) ≠ [] := by
    intro hnil
    have hlen : (sortByTs (migrationsForPlan planName planNamespace objs)).length =
        (migrationsForPlan planName planNamespace objs).length :=
      List.length_insertionSort tsLE _
    rw [hnil] at hlen
    simp at hlen
    omega
  obtain ⟨mlast, hlast⟩ :
      ∃ x, (sortByTs (migrationsForPlan planName planNamespace objs)).getLast? = some x :=
    ⟨_, List.getLast?_eq_getLast _ hsortne⟩
  refine ⟨mlast, ?_, ?_, ?_⟩
  · simp only [findMigrationForPlan]
    simp [hempty, hmany, hlast]
  · have : mlast ∈ sortByTs (migrationsForPlan planName planNamespace objs) :=
      List.mem_of_mem_getLast? hlast
    exact (List.mem_insertionSort tsLE).mp this
  · intro m' hm'
    have hsorted : (sortByTs (migrationsForPlan planName planNamespace objs)).Sorted tsLE :=
      List.sorted_insertionSort tsLE _
    have hmem : m' ∈ sortByTs (migrationsForPlan planName planNamespace objs) :=
      (List.mem_insertionSort tsLE).mpr hm'
    exact sorted_rel_getLast _ mlast hsorted hlast m' hmem

/-- Two Migrations referencing plan `p` in namespace `ns`, created at
timestamps 5 and 9. -/
def twoMigrations : List MigrationCR :=
  [{ name := "mig-a", planName := some "p", planNamespace := some "ns",
     creationTimestamp := 5, status := none },
   { name := "mig-b", planName := some "p", planNamespace := some "ns",
     creationTimestamp := 9, status := none }]

/-- C10 witness: on a namespace holding two Migrations for the same plan,
`_find_migration_for_plan` returns a member of the matching set carrying the
maximal creation timestamp. -/
theorem find_migration_returns_latest_witness :
    ∃ m, findMigrationForPlan "p" "ns" (.ok twoMigrations) = .ok m ∧
      m ∈ migrationsForPlan "p" "ns" twoMigrations ∧
      ∀ m' ∈ migrationsForPlan "p" "ns" twoMigrations,
        m'.creationTimestamp ≤ m.creationTimestamp :=
  find_migration_returns_latest "p" "ns" twoMigrations (by decide)

/-- C9: a plan configured with `expected_migration_result = "fail"` whose
poller nevertheless completes the full wait-for-success path makes
`migrate_vms` raise an `AssertionError` (which the handler, catching only
`MigrationPlanExecError`, lets escape) rather than return normally. -/
theorem migrate_vms_inverted_expectation (plan : PlanCfg) (planName planNamespace : String)
    (sampleAt : Nat → List PlanCondition) (timeout : Nat)
    (listing : Except Nat (List MigrationCR)) (cfgCheckVmsSignals : Bool)
    (hcons1 : plan.preHookName.isSome = plan.preHookNamespace.isSome)
    (hcons2 : plan.postHookName.isSome = plan.postHookNamespace.isSome)
    (hfail : plan.expectedMigrationResult = some "fail")
    (hwait : waitForMigrationComplate sampleAt timeout = .ok ()) :
    (migrateVms plan planName planNamespace sampleAt timeout listing cfgCheckVmsSignals).1 =
      .error .assertionError := by
  simp [migrateVms, hcons1, hcons2, hfail, hwait]

/-- A plan that expects failure and configures no hooks. -/
def planExpectFailNoHooks : PlanCfg :=
  { vmNames := ["vm1"], expectedMigrationResult := some "fail",
    preHookName := none, preHookNamespace := none,
    postHookName := none, postHookNamespace := none,
    expectedFailedStep := "PostHook", checkVmsSignals := none }

/-- A sample trace that reports a terminal `Succeeded` condition at once. -/
def traceTerminalSucceeded : Nat → List PlanCondition :=
  fun _ => [{ category := "Advisory", status := "True", type := "Succeeded" }]

/-- C9 witness: a concrete expect-fail plan whose poller observes `Succeeded`
makes `migrate_vms` surface the `AssertionError`. -/
theorem migrate_vms_inverted_expectation_witness :
    (migrateVms planExpectFailNoHooks "p" "ns" traceTerminalSucceeded
        planWaitTimeoutDefault (.ok []) true).1 = .error .assertionError :=
  migrate_vms_inverted_expectation planExpectFailNoHooks "p" "ns" traceTerminalSucceeded
    planWaitTimeoutDefault (.ok []) true rfl rfl rfl rfl

/-- C5: with no pre-hook and no post-hook configured, `migrate_vms` never
enters the hook failure classifier (`validate_all_vms_same_step` /
`validate_expected_hook_failure`), whatever the expected result, the poll
outcome and the Migration contents. -/
theorem migrate_vms_no_hooks_no_classifier (plan : PlanCfg) (planName planNamespace : String)
    (sampleAt : Nat → List PlanCondition) (timeout : Nat)
    (listing : Except Nat (List MigrationCR)) (cfgCheckVmsSignals : Bool)
    (hpre : plan.preHookName = none) (hpost : plan.postHookName = none) :
    MigEvent.classifierCalled ∉
      (migrateVms plan planName planNamespace sampleAt timeout listing cfgCheckVmsSignals).2 := by
  unfold migrateVms
  split
  · simp
  · split
    · simp
    · split
      · split
        · simp
        · split
          · simp
          · simp [hpre, hpost]
        · simp
      · split
        · split
          · simp
          · simp
        · simp

/-- C5 witness: a concrete hook-free expect-fail plan whose migration fails
produces no classifier call. -/
theorem migrate_vms_no_hooks_no_classifier_witness :
    MigEvent.classifierCalled ∉
      (migrateVms planExpectFailNoHooks "p" "ns" traceTerminalFailed
        planWaitTimeoutDefault (.ok []) true).2 :=
  migrate_vms_no_hooks_no_classifier planExpectFailNoHooks "p" "ns" traceTerminalFailed
    planWaitTimeoutDefault (.ok []) true rfl rfl

/-- C4 (amended): in an expect-fail run with hooks configured whose failed
steps resolve to the common step `step`, `migrate_vms` runs `check_vms` iff
`step` is `"PostHook"` and moreover matches the scenario's configured
expected step (otherwise `validate_expected_hook_failure` raises before the
`PostHook` special case is reached). -/
theorem migrate_vms_posthook_runs_check_vms (plan : PlanCfg) (planName planNamespace : String)
    (sampleAt : Nat → List PlanCondition) (timeout : Nat)
    (listing : Except Nat (List MigrationCR)) (cfgCheckVmsSignals : Bool)
    (fs : List (String × Option String)) (step : String)
    (hcons1 : plan.preHookName.isSome = plan.preHookNamespace.isSome)
    (hcons2 : plan.postHookName.isSome = plan.postHookNamespace.isSome)
    (hfail : plan.expectedMigrationResult = some "fail")
    (hwait : waitForMigrationComplate sampleAt timeout = .error .migrationPlanExecError)
    (hhooks : (plan.preHookName.isSome || plan.postHookName.isSome) = true)
    (hsteps : getAllVmsFailedSteps planName planNamespace listing plan.vmNames = .ok fs)
    (hcommon : validateAllVmsSameStep fs = .ok step) :
    MigEvent.checkVmsCalled ∈
        (migrateVms plan planName planNamespace sampleAt timeout listing
          cfgCheckVmsSignals).2 ↔
      (step = "PostHook" ∧ plan.expectedFailedStep = step) := by
  have hhooksNs : plan.preHookNamespace.isSome = true ∨ plan.postHookNamespace.isSome = true := by
    rw [← hcons1, ← hcons2]
    simpa using hhooks
  by_cases hexp : step = plan.expectedFailedStep
  · by_cases hph : step = "PostHook"
    · have hEP : plan.expectedFailedStep = "PostHook" := hexp.symm.trans hph
      simp [migrateVms, hcons1, hcons2, hfail, hwait, hsteps, hhooks, hcommon,
        validateExpectedHookFailure, hph, hEP, hhooksNs]
    · have hEP : plan.expectedFailedStep ≠ "PostHook" := fun h => hph (hexp.trans h)
      simp [migrateVms, hcons1, hcons2, hfail, hwait, hsteps, hhooks, hcommon,
        validateExpectedHookFailure, hexp, hEP, hhooksNs]
  · have hNE : plan.expectedFailedStep ≠ step := fun h => hexp h.symm
    simp [migrateVms, hcons1, hcons2, hfail, hwait, hsteps, hhooks, hcommon,
      validateExpectedHookFailure, hexp, hNE, hhooksNs]

/-- A per-VM status entry that failed at the `PostHook` pipeline step. -/
def vmStatusFailedAtPostHook : VmStatus :=
  { id := "vm1-id", name := "vm1",
    pipeline := some
      [{ name := "DiskTransfer", error := none },
       { name := "PostHook", error := some "hook failed" }] }

/-- A Migration whose single VM failed at the `PostHook` pipeline step. -/
def migrationVmFailedAtPostHook : MigrationCR :=
  { name := "mig", planName := some "p", planNamespace := some "ns",
    creationTimestamp := 0,
    status := some { vms := some [vmStatusFailedAtPostHook] } }

/-- An expect-fail plan with a post-hook whose configured expected failed
step is `PreHook`. -/
def planPostHookExpectPreHook : PlanCfg :=
  { vmNames := ["vm1"], expectedMigrationResult := some "fail",
    preHookName := none, preHookNamespace := none,
    postHookName := some "hook", postHookNamespace := some "hooks-ns",
    expectedFailedStep := "PreHook", checkVmsSignals := none }

/-- C4 counterexample: hooks are configured, the migration fails, and the
common failed step resolves to `PostHook`, yet `migrate_vms` does not run
`check_vms`, because the configured expected step is `PreHook` and
`validate_expected_hook_failure` raises first. -/
theorem migrate_vms_posthook_claim_false :
    getAllVmsFailedSteps "p" "ns" (.ok [migrationVmFailedAtPostHook])
        planPostHookExpectPreHook.vmNames = .ok [("vm1", some "PostHook")] ∧
      validateAllVmsSameStep [("vm1", some "PostHook")] = .ok "PostHook" ∧
      MigEvent.checkVmsCalled ∉
        (migrateVms planPostHookExpectPreHook "p" "ns" traceTerminalFailed
          planWaitTimeoutDefault (.ok [migrationVmFailedAtPostHook]) true).2 := by
  refine ⟨rfl, rfl, ?_⟩
  decide

/-- The same plan with the configured expected failed step `PostHook`. -/
def planPostHookExpectPostHook : PlanCfg :=
  { vmNames := ["vm1"], expectedMigrationResult := some "fail",
    preHookName := none, preHookNamespace := none,
    postHookName := some "hook", postHookNamespace := some "hooks-ns",
    expectedFailedStep := "PostHook", checkVmsSignals := none }

/-- C4 witness: with the expected step configured as `PostHook` and the
common failed step `PostHook`, `check_vms` runs despite the failed
migration. -/
theorem migrate_vms_posthook_runs_check_vms_witness :
    MigEvent.checkVmsCalled ∈
        (migrateVms planPostHookExpectPostHook "p" "ns" traceTerminalFailed
          planWaitTimeoutDefault (.ok [migrationVmFailedAtPostHook]) true).2 ↔
      ("PostHook" = "PostHook" ∧ planPostHookExpectPostHook.expectedFailedStep = "PostHook") :=
  migrate_vms_posthook_runs_check_vms planPostHookExpectPostHook "p" "ns"
    traceTerminalFailed planWaitTimeoutDefault (.ok [migrationVmFailedAtPostHook]) true
    [("vm1", some "PostHook")] "PostHook" rfl rfl rfl rfl rfl rfl rfl

/-- Membership in an if-then-else whose else branch is empty. -/
theorem mem_ite_nil {α : Type} {c : Prop} [Decidable c] {l : List α} {a : α} :
    a ∈ (if c then l else []) ↔ c ∧ a ∈ l := by
  by_cases h : c <;> simp [h]

/-- Membership in an if-then-else of two singleton lists. -/
theorem mem_ite_singleton {α : Type} {c : Prop} [Decidable c] {x y a : α} :
    a ∈ (if c then [x] else [y]) ↔ (c ∧ a = x) ∨ (¬ c ∧ a = y) := by
  by_cases h : c <;> simp [h]

/-- Where an access-mode `check.equal` in `check_storage` can come from: the
asserted actual value is some Ceph RBD destination disk's
`access_mode[0]`, and the expected value is `RWO`/`RWX` according to the
`accessMode` override of some storage-map entry whose source name merely
appears among the source VM's disk storage names. -/
theorem mem_checkStorage_access (sourceVm destinationVm : VmDisks)
    (storageMap : List StorageMapEntry) (cls : String) (v mode : String)
    (hmode : mode ≠ cls) :
    (Assertion.eqStr v mode "") ∈ checkStorage sourceVm destinationVm storageMap cls ↔
      ∃ d ∈ destinationVm.disks, accessMode0 d = v ∧ d.storage.name = cephRbdClass ∧
        ∃ m ∈ storageMap,
          m.source.name ∈ sourceVm.disks.map (fun x => x.storage.name) ∧
          ((truthyOpt m.destination.accessMode = true ∧ mode = RWO) ∨
           (truthyOpt m.destination.accessMode = false ∧ mode = RWX)) := by
  unfold checkStorage
  simp only [List.mem_cons, List.mem_flatMap, mem_ite_nil, mem_ite_singleton]
  constructor
  · rintro (hcount | ⟨d, hd, hmem⟩)
    · cases hcount
    · rcases hmem with hclass | ⟨hceph, m, hm, hsrc, hmem⟩
      · exact absurd (Assertion.eqStr.inj hclass).2.1 hmode
      · refine ⟨d, hd, ?_, by simpa using hceph, m, hm, ?_, ?_⟩
        · rcases hmem with ⟨_, hEq⟩ | ⟨_, hEq⟩ <;>
            exact ((Assertion.eqStr.inj hEq).1).symm
        · simpa [List.contains_iff_exists_mem_beq, List.mem_map] using hsrc
        · rcases hmem with ⟨ht, hEq⟩ | ⟨ht, hEq⟩
          · exact Or.inl ⟨ht, (Assertion.eqStr.inj hEq).2.1⟩
          · exact Or.inr ⟨by simpa using ht, (Assertion.eqStr.inj hEq).2.1⟩
  · rintro ⟨d, hd, hv, hceph, m, hm, hsrc, hmem⟩
    refine Or.inr ⟨d, hd, Or.inr ⟨by simpa using hceph, m, hm, ?_, ?_⟩⟩
    · simpa [List.contains_iff_exists_mem_beq, List.mem_map] using hsrc
    · rcases hmem with ⟨ht, hEq⟩ | ⟨ht, hEq⟩
      · exact Or.inl ⟨ht, by rw [hv, hEq]⟩
      · exact Or.inr ⟨by simp [ht], by rw [hv, hEq]⟩

/-- C6 (amended): `check_storage` asserts the destination disk count against
the source disk count and each destination disk's storage class against the
configured class; for a Ceph RBD destination disk the access-mode checks
are generated from every storage-map entry whose source name appears among
any of the source VM's disk storage names — `RWO` when that entry carries an
`accessMode` override and `RWX` when it does not — without correlating the
entry with the particular disk, so a disk is asserted to `RWO` (resp. `RWX`)
exactly when some matching entry carries (resp. lacks) an override, and with
two entries differing in override every Ceph RBD disk is asserted to both
modes. -/
theorem check_storage_access_mode_uncorrelated (sourceVm destinationVm : VmDisks)
    (storageMap : List StorageMapEntry) (d : DiskRec)
    (hd : d ∈ destinationVm.disks) (hceph : d.storage.name = cephRbdClass) :
    (Assertion.eqNat destinationVm.disks.length sourceVm.disks.length "disks count") ∈
        checkStorage sourceVm destinationVm storageMap cephRbdClass ∧
    (Assertion.eqStr d.storage.name cephRbdClass "storage class") ∈
        checkStorage sourceVm destinationVm storageMap cephRbdClass ∧
    ((Assertion.eqStr (accessMode0 d) RWO "") ∈
        checkStorage sourceVm destinationVm storageMap cephRbdClass ↔
      ∃ m ∈ storageMap,
        m.source.name ∈ sourceVm.disks.map (fun x => x.storage.name) ∧
          truthyOpt m.destination.accessMode = true) ∧
    ((Assertion.eqStr (accessMode0 d) RWX "") ∈
        checkStorage sourceVm destinationVm storageMap cephRbdClass ↔
      ∃ m ∈ storageMap,
        m.source.name ∈ sourceVm.disks.map (fun x => x.storage.name) ∧
          truthyOpt m.destination.accessMode = false) := by
  refine ⟨?_, ?_, ?_, ?_⟩
  · unfold checkStorage
    exact List.mem_cons_self _ _
  · unfold checkStorage
    refine List.mem_cons_of_mem _ (List.mem_flatMap.mpr ⟨d, hd, List.mem_cons_self _ _⟩)
  · rw [mem_checkStorage_access sourceVm destinationVm storageMap cephRbdClass
      (accessMode0 d) RWO (by decide)]
    constructor
    · rintro ⟨d', _, _, _, m, hm, hsrc, hside⟩
      rcases hside with ⟨ht, _⟩ | ⟨_, hbad⟩
      · exact ⟨m, hm, hsrc, ht⟩
      · exact absurd hbad (by decide)
    · rintro ⟨m, hm, hsrc, ht⟩
      exact ⟨d, hd, rfl, hceph, m, hm, hsrc, Or.inl ⟨ht, rfl⟩⟩
  · rw [mem_checkStorage_access sourceVm destinationVm storageMap cephRbdClass
      (accessMode0 d) RWX (by decide)]
    constructor
    · rintro ⟨d', _, _, _, m, hm, hsrc, hside⟩
      rcases hside with ⟨_, hbad⟩ | ⟨ht, _⟩
      · exact absurd hbad (by decide)
      · exact ⟨m, hm, hsrc, ht⟩
    · rintro ⟨m, hm, hsrc, ht⟩
      exact ⟨d, hd, rfl, hceph, m, hm, hsrc, Or.inr ⟨ht, rfl⟩⟩

/-- A source VM with two disks on storages `ds1` and `ds2`. -/
def srcVmTwoStorages : VmDisks :=
  { disks := [{ storage := { name := "ds1", access_mode := [] } },
              { storage := { name := "ds2", access_mode := [] } }] }

/-- A destination disk on the Ceph RBD class with access mode `RWO`. -/
def dstDiskRwo : DiskRec :=
  { storage := { name := cephRbdClass, access_mode := ["ReadWriteOnce"] } }

/-- A destination disk on the Ceph RBD class with access mode `RWX`. -/
def dstDiskRwx : DiskRec :=
  { storage := { name := cephRbdClass, access_mode := ["ReadWriteMany"] } }

/-- A storage-map entry for `ds1` with an explicit `accessMode` override. -/
def smEntryOverride : StorageMapEntry :=
  { source := { name := "ds1" }, destination := { accessMode := some "ReadWriteOnce" } }

/-- A storage-map entry for `ds2` with no override. -/
def smEntryPlain : StorageMapEntry :=
  { source := { name := "ds2" }, destination := { accessMode := none } }

/-- C6 counterexample: with one overridden and one plain mapping for the two
source storages, the run asserts the first destination disk's actual access
mode (`ReadWriteOnce`) both against `RWO` and against `RWX` — the check is
not correlated per disk, so the scenario the claim calls consistent records
a failing assertion. -/
theorem check_storage_claim_false :
    (Assertion.eqStr "ReadWriteOnce" RWO "") ∈
        checkStorage srcVmTwoStorages { disks := [dstDiskRwo, dstDiskRwx] }
          [smEntryOverride, smEntryPlain] cephRbdClass ∧
      (Assertion.eqStr "ReadWriteOnce" RWX "") ∈
        checkStorage srcVmTwoStorages { disks := [dstDiskRwo, dstDiskRwx] }
          [smEntryOverride, smEntryPlain] cephRbdClass ∧
      (checkStorage srcVmTwoStorages { disks := [dstDiskRwo, dstDiskRwx] }
          [smEntryOverride, smEntryPlain] cephRbdClass).all assertionHolds = false := by
  refine ⟨?_, ?_, ?_⟩ <;> decide

/-- C6 witness: for the concrete override-carrying map, the structural
properties of the amended claim instantiate at the first destination
disk. -/
theorem check_storage_access_mode_uncorrelated_witness :
    (Assertion.eqNat 2 2 "disks count") ∈
        checkStorage srcVmTwoStorages { disks := [dstDiskRwo, dstDiskRwx] }
          [smEntryOverride] cephRbdClass ∧
    (Assertion.eqStr dstDiskRwo.storage.name cephRbdClass "storage class") ∈
        checkStorage srcVmTwoStorages { disks := [dstDiskRwo, dstDiskRwx] }
          [smEntryOverride] cephRbdClass ∧
    ((Assertion.eqStr (accessMode0 dstDiskRwo) RWO "") ∈
        checkStorage srcVmTwoStorages { disks := [dstDiskRwo, dstDiskRwx] }
          [smEntryOverride] cephRbdClass ↔
      ∃ m ∈ [smEntryOverride],
        m.source.name ∈ srcVmTwoStorages.disks.map (fun x => x.storage.name) ∧
          truthyOpt m.destination.accessMode = true) ∧
    ((Assertion.eqStr (accessMode0 dstDiskRwo) RWX "") ∈
        checkStorage srcVmTwoStorages { disks := [dstDiskRwo, dstDiskRwx] }
          [smEntryOverride] cephRbdClass ↔
      ∃ m ∈ [smEntryOverride],
        m.source.name ∈ srcVmTwoStorages.disks.map (fun x => x.storage.name) ∧
          truthyOpt m.destination.accessMode = false) :=
  check_storage_access_mode_uncorrelated srcVmTwoStorages
    { disks := [dstDiskRwo, dstDiskRwx] } [smEntryOverride] dstDiskRwo
    (by decide) rfl

/-- A successful `get_nic_by_mac` returns a destination NIC carrying the
requested MAC address. -/
theorem getNicByMac_ok (nics : List DstNic) (mac : String) (n : DstNic)
    (h : getNicByMac nics mac = .ok n) : n ∈ nics ∧ n.macAddress = mac := by
  unfold getNicByMac at h
  cases hfil : nics.filter (fun x => x.macAddress == mac) with
  | nil => rw [hfil] at h; cases h
  | cons n0 rest =>
    rw [hfil] at h
    have hn : n = n0 := (Except.ok.inj h).symm
    have hmem : n0 ∈ nics.filter (fun x => x.macAddress == mac) := by
      rw [hfil]; exact List.mem_cons_self n0 rest
    rcases List.mem_filter.mp hmem with ⟨hin, hpred⟩
    exact ⟨hn ▸ hin, hn ▸ (by simpa using hpred)⟩

/-- C7 (amended): `check_network` never passes silently — whenever it
returns normally, every source NIC's network identity resolved to a map
entry and some destination NIC carries its MAC address; an unresolved NIC
or a missing MAC makes it raise (`TypeError` from subscripting the `None`
returned by `get_destination`, `IndexError` from `get_nic_by_mac`) rather
than record a soft failure. -/
theorem check_network_ok_resolves (srcNics : List SrcNic) (dstNics : List DstNic)
    (networkMap : List NetworkMapEntry) (assertions : List Assertion)
    (h : checkNetwork srcNics dstNics networkMap = .ok assertions) :
    ∀ nic ∈ srcNics,
      (∃ res, getDestination networkMap nic.network = .ok (some res)) ∧
        ∃ d ∈ dstNics, d.macAddress = nic.macAddress := by
  induction srcNics generalizing assertions with
  | nil =>
    intro nic hnic
    cases hnic
  | cons nic0 rest ih =>
    unfold checkNetwork at h
    cases hdest : getDestination networkMap nic0.network with
    | error e => rw [hdest] at h; cases h
    | ok o =>
      cases o with
      | none => rw [hdest] at h; cases h
      | some res =>
        rw [hdest] at h
        cases hmac : getNicByMac dstNics nic0.macAddress with
        | error e => rw [hmac] at h; cases h
        | ok dn =>
          rw [hmac] at h
          cases hrec : checkNetwork rest dstNics networkMap with
          | error e => rw [hrec] at h; cases h
          | ok tail =>
            intro nic hnic
            rcases List.mem_cons.mp hnic with hn0 | hrest
            · subst hn0
              rcases getNicByMac_ok dstNics nic.macAddress dn hmac with ⟨hin, hm⟩
              exact ⟨⟨res, hdest⟩, dn, hin, hm⟩
            · exact ih tail hrec nic hrest

/-- A source NIC whose network identity matches no network-map entry. -/
def nicUnmapped : SrcNic :=
  { macAddress := "00-aa", network := { id := none, name := some "netX" } }

/-- A network-map entry for a different source network. -/
def nmEntryOther : NetworkMapEntry :=
  { source := { type := none, name := some "other", id := none },
    destination := { type := none, name := some "dst" } }

/-- A network-map entry matching `netX` by name. -/
def nmEntryMatch : NetworkMapEntry :=
  { source := { type := none, name := some "netX", id := none },
    destination := { type := none, name := some "dst" } }

/-- A destination NIC with a MAC that matches no source NIC. -/
def dstNicOtherMac : DstNic :=
  { macAddress := "00-bb", network := "dst" }

/-- C7 counterexample: a NIC with no matching map entry makes the network
check raise `TypeError` (subscripting `None`), and a NIC whose MAC no
destination NIC carries makes it raise `IndexError` — in neither case is an
explicit check failure recorded. -/
theorem check_network_claim_false :
    checkNetwork [nicUnmapped] [dstNicOtherMac] [nmEntryOther] = .error .typeError ∧
      checkNetwork [nicUnmapped] [dstNicOtherMac] [nmEntryMatch] = .error .indexError := by
  exact ⟨rfl, rfl⟩

/-- A destination NIC carrying the source NIC's MAC. -/
def dstNicSameMac : DstNic :=
  { macAddress := "00-aa", network := "dst" }

/-- C7 witness: on a fully resolvable configuration the network check
returns normally, and the amended claim's resolution guarantees follow. -/
theorem check_network_ok_resolves_witness :
    checkNetwork [nicUnmapped] [dstNicSameMac] [nmEntryMatch] =
        .ok [.eqStrOpt "dst" (some "dst") ""] ∧
      ∀ nic ∈ [nicUnmapped],
        (∃ res, getDestination [nmEntryMatch] nic.network = .ok (some res)) ∧
          ∃ d ∈ [dstNicSameMac], d.macAddress = nic.macAddress :=
  ⟨rfl, check_network_ok_resolves [nicUnmapped] [dstNicSameMac] [nmEntryMatch]
    [.eqStrOpt "dst" (some "dst") ""] rfl⟩

/-- An enumeration consisting of one VM with a missing vmx descriptor. -/
def vmMissingDescriptor : VSphereVM :=
  { name := "vm1", missingVmx := true, badDatastore := false }

/-- An enumeration consisting of one VM with inaccessible backing storage. -/
def vmInaccessibleStorage : VSphereVM :=
  { name := "vm2", missingVmx := false, badDatastore := true }

/-- C8: at an enumeration containing an unhealthy VM, `vms()` does fail as a
whole — no VM list is returned — but the raise sites
`VmMissingVmxError(vms=...)` / `VmBadDatastoreError(vms=...)` pass the
keyword `vms` to constructors whose only parameter is `vm`
(`exceptions/exceptions.py`), so the call surfaces a `TypeError` instead of
the batch error carrying the offending VM names. -/
theorem vmware_vms_unhealthy_raises_type_error :
    vmwareVms (fun _ _ => true) "esx1" [vmMissingDescriptor] "" =
        .typeError "VmMissingVmxError" "vms" ∧
      vmwareVms (fun _ _ => true) "esx1" [vmInaccessibleStorage] "" =
        .typeError "VmBadDatastoreError" "vms" := by
  exact ⟨rfl, rfl⟩

end MtvApiTests
